import Mathlib

/-!
# consteval-source-location: call-site registry and trace points

Shallow embedding of `consteval-source-location.cpp`.

* `std::vector<T>` is a list of elements together with a capacity; the growth
  policy of the standard library (how much capacity a full vector asks for) is
  a parameter `grow` of `push_back`.
* `std::cout` is the string of everything written so far.
* `std::size_t` is a natural number below `2 ^ 64`.
* A `bb*` is `none` (the null pointer) or `some a`, the address `a` of a `bb`
  object; the objects live in `World.heap`.
* The two mutexes carry no state in a sequential embedding and are left out.
-/

set_option linter.dupNamespace false

namespace ConstevalSourceLocation

/-! ## Standard library: `std::vector` -/

/-- The part of `std::vector<T>` the program observes: the elements and `capacity()`. -/
structure vector (α : Type) where
  elems : List α
  cap : Nat

/-- Constructor `vector(size_type n)`: `n` value-initialised elements (`zero`), in storage for
exactly `n`, as the libstdc++, libc++ and MSVC libraries allocate it. -/
def vector.sized {α : Type} (zero : α) (n : Nat) : vector α :=
  { elems := List.replicate n zero, cap := n }

/-- Member `size()`. -/
def vector.size {α : Type} (v : vector α) : Nat := v.elems.length

/-- Member `capacity()`. -/
def vector.capacity {α : Type} (v : vector α) : Nat := v.cap

/-- Member `push_back(x)`: appends `x`; when the storage is full the capacity becomes what the
growth policy asks for, and at least enough for the new size. -/
def vector.push_back {α : Type} (grow : Nat → Nat) (v : vector α) (x : α) : vector α :=
  if v.size < v.cap then { elems := v.elems ++ [x], cap := v.cap }
  else { elems := v.elems ++ [x], cap := max (grow v.cap) (v.size + 1) }

/-! ## Standard library: `std::vformat` for `{}` fields -/

/-- Where the scanner of a format string stands: in plain text, just after a `{`, or
just after a `}`. -/
inductive scan where
  | text
  | opened
  | closed
deriving DecidableEq, Repr

/-- What one formatting step did: the state of `std::cout` afterwards (a formatter may
write to it) and the text produced, or `none` when `std::format_error` was thrown. -/
structure formatted where
  cout : String
  result : Option String
deriving DecidableEq, Repr

/-- The scanning loop of `std::vformat`, for format strings whose replacement fields are
all `{}` (automatic indexing, no format specification) and the escapes `{{` and `}}`.
`render a cout out` formats one argument: it appends the text of `a` to `out` and gives
`std::cout` afterwards. A field that finds no argument left, or a brace that is neither
part of a field nor of an escape, throws. Fields with an explicit index or a format
specification are outside this fragment. -/
def vformat_loop {α : Type} (render : α → String → String → formatted) :
    scan → List Char → List α → String → String → formatted
  | scan.text, [], _, cout, out => { cout := cout, result := some out }
  | scan.opened, [], _, cout, _ => { cout := cout, result := none }
  | scan.closed, [], _, cout, _ => { cout := cout, result := none }
  | scan.text, c :: rest, args, cout, out =>
    if c = '{' then vformat_loop render scan.opened rest args cout out
    else if c = '}' then vformat_loop render scan.closed rest args cout out
    else vformat_loop render scan.text rest args cout (out.push c)
  | scan.opened, c :: rest, args, cout, out =>
    if c = '{' then vformat_loop render scan.text rest args cout (out.push '{')
    else if c = '}' then
      match args with
      | [] => { cout := cout, result := none }
      | a :: args' =>
        match (render a cout out).result with
        | none => { cout := (render a cout out).cout, result := none }
        | some out' => vformat_loop render scan.text rest args' (render a cout out).cout out'
    else { cout := cout, result := none }
  | scan.closed, c :: rest, args, cout, out =>
    if c = '}' then vformat_loop render scan.text rest args cout (out.push '}')
    else { cout := cout, result := none }

/-- A value of a built-in integral type that `std::format` renders: `bool`, `char`, or
an integer of any width and signedness. -/
inductive integral where
  | boolean (b : Bool)
  | character (c : Char)
  | integer (n : Int)
deriving DecidableEq, Repr

/-- The default (`{}`) text of a built-in integral value: `true`/`false`, the character
itself, or the decimal digits with a leading `-` when negative. -/
def integral.text : integral → String
  | integral.boolean b => if b then "true" else "false"
  | integral.character c => String.singleton c
  | integral.integer n => Int.repr n

/-- The built-in formatter of an integral value: appends its text, leaves `std::cout`. -/
def integral.render (a : integral) (cout : String) (out : String) : formatted :=
  { cout := cout, result := some (out ++ a.text) }

/-- Function `std::format_to(out, fmt, ts...)` with built-in integral arguments: the output with
the formatted text appended; `none` when `std::format_error` is thrown. -/
def format_to (out : String) (fmt : String) (ts : List integral) : Option String :=
  (vformat_loop integral.render scan.text fmt.data ts "" out).result

/-- Function `std::format(fmt, ts...)` with built-in integral arguments. -/
def format (fmt : String) (ts : List integral) : Option String :=
  format_to "" fmt ts

/-! ## `int_wrapper` and its formatter -/

/-- The `struct int_wrapper { int n{ 0 }; }`. -/
structure int_wrapper where
  n : Int := 0
deriving DecidableEq, Repr

/-- Constructor `std::formatter<int_wrapper>::formatter()`: the debugging constructor writes a line
to `std::cout`. -/
def formatter_int_wrapper.formatter (cout : String) : String :=
  cout ++ "formatter<int_wrapper>()\n"

/-- Member `std::formatter<int_wrapper>::parse`: returns `ctx.begin()`, consuming nothing. -/
def formatter_int_wrapper.parse (ctx : List Char) : List Char :=
  ctx

/-- Member `std::formatter<int_wrapper>::format`: `std::format_to(ctx.out(), "{}", v.n)`. -/
def formatter_int_wrapper.format (v : int_wrapper) (out : String) : Option String :=
  format_to out "{}" [integral.integer v.n]

/-! ## The `traceable` concept -/

/-- The C++ types the concept is asked about: the fundamental arithmetic types, the two
structs of the program, and `std::string` as a class type that has a standard formatter. -/
inductive cpp_type where
  | bool | char | signed_char | unsigned_char | wchar_t | char8_t | char16_t | char32_t
  | short | unsigned_short | int | unsigned_int
  | long | unsigned_long | long_long | unsigned_long_long
  | float | double | long_double
  | std_string
  | int_wrapper
  | untraceable
deriving DecidableEq, Repr

/-- Concept `std::integral<T>`: `bool`, the character types and the signed and unsigned integer
types. -/
def cpp_type.integral : cpp_type → Bool
  | cpp_type.bool | cpp_type.char | cpp_type.signed_char | cpp_type.unsigned_char
  | cpp_type.wchar_t | cpp_type.char8_t | cpp_type.char16_t | cpp_type.char32_t
  | cpp_type.short | cpp_type.unsigned_short | cpp_type.int | cpp_type.unsigned_int
  | cpp_type.long | cpp_type.unsigned_long | cpp_type.long_long
  | cpp_type.unsigned_long_long => true
  | _ => false

/-- Concept `std::floating_point<T>`. -/
def cpp_type.floating_point : cpp_type → Bool
  | cpp_type.float | cpp_type.double | cpp_type.long_double => true
  | _ => false

/-- Concept `std::same_as<T, U>`. -/
def cpp_type.same_as (T U : cpp_type) : Bool :=
  decide (T = U)

/-- Whether `std::formatter<T, char>` is enabled: the standard enables it for `char`,
for the arithmetic types other than the wide and Unicode character types, and for
strings; the program adds `int_wrapper`. -/
def cpp_type.has_formatter : cpp_type → Bool
  | cpp_type.wchar_t | cpp_type.char8_t | cpp_type.char16_t | cpp_type.char32_t => false
  | cpp_type.untraceable => false
  | _ => true

/-- The concept `template <typename T> concept traceable =
std::integral<T> || std::same_as<int_wrapper, T>;`. -/
def traceable (T : cpp_type) : Bool :=
  T.integral || cpp_type.same_as cpp_type.int_wrapper T

/-- An argument `bb::trace` can be called with and format: a value of a built-in
integral type or an `int_wrapper`. -/
inductive arg where
  | builtin (i : integral)
  | wrapper (v : int_wrapper)
deriving DecidableEq, Repr

/-- Formatting one argument of `std::vformat`. A built-in value is rendered directly; for
an `int_wrapper` the library default-constructs `std::formatter<int_wrapper>`, then calls
its `format`. -/
def arg.render : arg → String → String → formatted
  | arg.builtin i, cout, out => i.render cout out
  | arg.wrapper v, cout, out =>
    { cout := formatter_int_wrapper.formatter cout,
      result := formatter_int_wrapper.format v out }

/-- Function `std::vformat(fmt, std::make_format_args(ts...))`, run with `std::cout` in state
`cout`. -/
def vformat (fmt : String) (ts : List arg) (cout : String) : formatted :=
  vformat_loop arg.render scan.text fmt.data ts cout ""

/-! ## The program state -/

/-- Class `std::source_location`: the file name and the line. -/
structure source_location where
  file_name : String
  line : Nat
deriving DecidableEq, Repr

/-- The `struct bb` (a trace point). The member `sys` refers to the registry of the world
the object lives in. -/
structure bb where
  format_string : String
  loc : source_location
  call_count : Nat
deriving DecidableEq, Repr

/-- The `struct blackbox_system` (the call-site registry): the vector of `bb*`, a null
pointer being `none`. -/
structure blackbox_system where
  callsites : vector (Option Nat)

/-- The state a run of the program acts on: the registry, the `bb` objects by address,
and everything written to `std::cout`. -/
structure World where
  sys : blackbox_system
  heap : Nat → Option bb
  cout : String

/-- How a call ended: it returned, or an exception left it. -/
inductive completion where
  | returned
  | threw
deriving DecidableEq, Repr

/-- Number of values of `std::size_t`. -/
def size_t_range : Nat := 2 ^ 64

/-! ## `blackbox_system` -/

/-- Constructor `blackbox_system::blackbox_system(size_t callsites_max)`: the member initialiser
`callsites(callsites_max)` builds a vector of `callsites_max` null pointers. -/
def blackbox_system.blackbox_system (callsites_max : Nat) : blackbox_system :=
  { callsites := vector.sized none callsites_max }

set_option linter.unusedVariables false in
/-- Member `blackbox_system::add_callsite(bb* callsite)`: appends the pointer; when the capacity
grew, the message is formatted into the local `result`, which nothing reads. -/
def blackbox_system.add_callsite (grow : Nat → Nat) (w : World) (callsite : Option Nat) :
    World :=
  let c := w.sys.callsites.capacity
  let callsites := w.sys.callsites.push_back grow callsite
  if callsites.capacity > c then
    let result := format "INFO: Call site vector reallocated from {} to {}\n"
      [integral.integer c, integral.integer callsites.capacity]
    { w with sys := { callsites := callsites } }
  else
    { w with sys := { callsites := callsites } }

/-! ## `bb` -/

/-- Constructor `bb::bb(sys_p, format_string_p, loc_p)` constructing the object at address `this`:
the members are initialised, `call_count` to 0, and the object registers itself. -/
def bb.bb (grow : Nat → Nat) (w : World) (this : Nat) (format_string_p : String)
    (loc_p : source_location) : World :=
  let self := bb.mk format_string_p loc_p 0
  blackbox_system.add_callsite grow { w with heap := Function.update w.heap this (some self) }
    (some this)

/-- Member `bb::trace(ts...)` on the object at address `this`; `none` when no object lives
there. The counter is incremented (the first-call branch is empty), then the location
prefix, the formatted message and a newline go to `std::cout`; when `std::vformat`
throws, the exception leaves `trace` after the prefix. -/
def bb.trace (w : World) (this : Nat) (ts : List arg) : Option (World × completion) :=
  match w.heap this with
  | none => none
  | some self =>
    let self0 := if self.call_count = 0 then self else self
    let self1 := { self0 with call_count := (self0.call_count + 1) % size_t_range }
    let heap1 := Function.update w.heap this (some self1)
    let cout1 := w.cout ++ "At " ++ self1.loc.file_name ++ ":" ++ Nat.repr self1.loc.line ++ ": "
    let f := vformat self1.format_string ts cout1
    match f.result with
    | none => some ({ w with heap := heap1, cout := f.cout }, completion.threw)
    | some message =>
      some ({ w with heap := heap1, cout := f.cout ++ message ++ "\n" }, completion.returned)

/-- The `call_count` of the object at address `this`. -/
def World.call_count (w : World) (this : Nat) : Option Nat :=
  (w.heap this).map bb.call_count

/-- A sequence of `bb::trace` calls on the object at `this`, one after the other, each
with its own arguments; a call that throws has still run. -/
def trace_calls (this : Nat) : World → List (List arg) → Option World
  | w, [] => some w
  | w, ts :: rest =>
    match bb.trace w this ts with
    | none => none
    | some r => trace_calls this r.1 rest

/-- Registering the given pointers one after the other. -/
def add_callsites (grow : Nat → Nat) : World → List (Option Nat) → World
  | w, [] => w
  | w, p :: rest => add_callsites grow (blackbox_system.add_callsite grow w p) rest

/-- The integer argument `n` of a call, as in `x->trace(41, 42, 43)`. -/
def arg.int (n : Int) : arg :=
  arg.builtin (integral.integer n)

/-! ## Definitions used to state the properties -/

/-- The lines the `int_wrapper` formatter constructors write when `k` of them run. -/
def formatter_lines : Nat → String
  | 0 => ""
  | k + 1 => "formatter<int_wrapper>()\n" ++ formatter_lines k

/-- Whether an argument is an `int_wrapper`. -/
def arg.is_wrapper : arg → Bool
  | arg.builtin _ => false
  | arg.wrapper _ => true

/-- The number of `{}` fields the scanner meets in a format string before its end or the
first brace it rejects. -/
def field_count : scan → List Char → Nat
  | _, [] => 0
  | scan.text, c :: rest =>
    if c = '{' then field_count scan.opened rest
    else if c = '}' then field_count scan.closed rest
    else field_count scan.text rest
  | scan.opened, c :: rest =>
    if c = '{' then field_count scan.text rest
    else if c = '}' then field_count scan.text rest + 1
    else 0
  | scan.closed, c :: rest =>
    if c = '}' then field_count scan.text rest
    else 0

/-- The number of `int_wrapper` arguments a successful `std::vformat` of `fmt` formats:
those among the arguments its `{}` fields consume, the first `field_count` ones. -/
def wrappers_formatted (fmt : String) (ts : List arg) : Nat :=
  (ts.take (field_count scan.text fmt.data)).countP arg.is_wrapper

/-- A growth policy that doubles the capacity. -/
def doubling (c : Nat) : Nat := 2 * c

/-- The state right after `blackbox_system sys(100)` as in `main`, with no object yet and
nothing written. -/
def world_100 : World :=
  { sys := blackbox_system.blackbox_system 100, heap := fun _ => none, cout := "" }

/-- The state after `new bb(sys, "Write these G{} H{} I{}")` of line 169 put the object
at address 2. -/
def world_ghi : World :=
  bb.bb doubling world_100 2 "Write these G{} H{} I{}" { file_name := "f.cpp", line := 169 }

/-- The state after `new bb(sys, "Write this good boy {}")` of line 182 put the object
at address 3. -/
def world_good_boy : World :=
  bb.bb doubling world_100 3 "Write this good boy {}" { file_name := "f.cpp", line := 182 }

/-- The state after a `new bb(sys, "{}")` on line 7 put the object at address 4: a
template with one field. -/
def world_one_field : World :=
  bb.bb doubling world_100 4 "{}" { file_name := "f.cpp", line := 7 }

/-- The object the constructor call of line 169 builds. -/
def bb_ghi : bb :=
  bb.mk "Write these G{} H{} I{}" { file_name := "f.cpp", line := 169 } 0

/-- The object the constructor call of line 182 builds. -/
def bb_good_boy : bb :=
  bb.mk "Write this good boy {}" { file_name := "f.cpp", line := 182 } 0

/-- The object a `new bb(sys, "a{}b{}c")` on line 9 builds: a template with two fields. -/
def bb_two_fields : bb :=
  bb.mk "a{}b{}c" { file_name := "f.cpp", line := 9 } 0

/-- The state after that constructor call put the object at address 5. -/
def world_two_fields : World :=
  bb.bb doubling world_100 5 "a{}b{}c" { file_name := "f.cpp", line := 9 }

/-- Three calls of `trace`: one integer, no argument (which throws on the template `{}`),
one `int_wrapper`. -/
def three_calls : List (List arg) :=
  [[arg.int 1], [], [arg.wrapper { n := 7 }]]

/-- The accepted types of `traceable`, listed. -/
def traceable_types : List cpp_type :=
  [cpp_type.bool, cpp_type.char, cpp_type.signed_char, cpp_type.unsigned_char,
   cpp_type.wchar_t, cpp_type.char8_t, cpp_type.char16_t, cpp_type.char32_t,
   cpp_type.short, cpp_type.unsigned_short, cpp_type.int, cpp_type.unsigned_int,
   cpp_type.long, cpp_type.unsigned_long, cpp_type.long_long, cpp_type.unsigned_long_long,
   cpp_type.int_wrapper]

/-! ## Lemmas on `bb::trace` -/

/-- What `bb::trace` does to the heap, the registry and the counter, whatever the
formatting does. -/
theorem bb_trace_effect (w : World) (this : Nat) (b : bb) (ts : List arg)
    (h : w.heap this = some b) :
    ∃ r, bb.trace w this ts = some r ∧
      r.1.sys = w.sys ∧
      r.1.heap = Function.update w.heap this
        (some { b with call_count := (b.call_count + 1) % size_t_range }) := by
  unfold bb.trace
  rw [h]
  simp only [ite_self]
  split <;> exact ⟨_, rfl, rfl, rfl⟩

/-- The counter after a sequence of calls, from any state of the object. -/
theorem trace_calls_call_count (this : Nat) (calls : List (List arg)) :
    ∀ (w : World) (b : bb), w.heap this = some b →
      b.call_count + calls.length < size_t_range →
      ∃ w1, trace_calls this w calls = some w1 ∧
        w1.call_count this = some (b.call_count + calls.length) := by
  induction calls with
  | nil =>
    intro w b h _
    exact ⟨w, rfl, by simp [World.call_count, h]⟩
  | cons ts rest ih =>
    intro w b h hlt
    obtain ⟨r, hr, _, hheap⟩ := bb_trace_effect w this b ts h
    have hlen : (ts :: rest).length = rest.length + 1 := rfl
    rw [hlen] at hlt
    have hsmall : (b.call_count + 1) % size_t_range = b.call_count + 1 :=
      Nat.mod_eq_of_lt (by omega)
    have h1 : r.1.heap this = some { b with call_count := b.call_count + 1 } := by
      rw [hheap, Function.update_same, hsmall]
    obtain ⟨w1, hw1, hc⟩ := ih r.1 _ h1 (by simp only; omega)
    refine ⟨w1, ?_, ?_⟩
    · simp only [trace_calls, hr]
      exact hw1
    · rw [hc, hlen]
      simp only
      congr 1
      omega


/-! ## Lemmas on `std::vformat` -/

/-- Formatting one argument appends to `std::cout` and does not read it. -/
theorem arg_render_cout (a : arg) (cout out : String) :
    arg.render a cout out =
      { cout := cout ++ (arg.render a "" out).cout, result := (arg.render a "" out).result } := by
  cases a with
  | builtin i => simp [arg.render, integral.render]
  | wrapper v => simp [arg.render, formatter_int_wrapper.formatter]

/-- The scanning loop appends to `std::cout` and does not read it. -/
theorem vformat_loop_cout (t : List Char) :
    ∀ (st : scan) (args : List arg) (cout out : String),
      vformat_loop arg.render st t args cout out =
        { cout := cout ++ (vformat_loop arg.render st t args "" out).cout,
          result := (vformat_loop arg.render st t args "" out).result } := by
  induction t with
  | nil => intro st args cout out; cases st <;> simp [vformat_loop]
  | cons c rest ih =>
    intro st args cout out
    cases st with
    | text =>
      simp only [vformat_loop]
      split
      · exact ih _ _ _ _
      · split <;> exact ih _ _ _ _
    | closed =>
      simp only [vformat_loop]
      split
      · exact ih _ _ _ _
      · simp
    | opened =>
      simp only [vformat_loop]
      split
      · exact ih _ _ _ _
      · split
        · cases args with
          | nil => simp
          | cons a args1 =>
            simp only
            rw [arg_render_cout a cout out]
            cases hres : (arg.render a "" out).result with
            | none => simp
            | some o =>
              simp only
              rw [ih scan.text args1 (cout ++ (arg.render a "" out).cout) o,
                ih scan.text args1 (arg.render a "" out).cout o]
              simp [String.append_assoc]
        · simp


/-- Appending the lines of `j` constructors to those of `k`. -/
theorem formatter_lines_add (j k : Nat) :
    formatter_lines j ++ formatter_lines k = formatter_lines (j + k) := by
  induction j with
  | zero => simp [formatter_lines]
  | succ j ih =>
    rw [Nat.succ_add]
    simp only [formatter_lines, String.append_assoc, ih]

/-- What formatting one argument writes to `std::cout`: one constructor line for an
`int_wrapper`, nothing for a built-in value. -/
theorem arg_render_lines (a : arg) (out : String) :
    (arg.render a "" out).cout = formatter_lines (if a.is_wrapper then 1 else 0) := by
  cases a with
  | builtin i => simp [arg.render, integral.render, arg.is_wrapper, formatter_lines]
  | wrapper v =>
    simp [arg.render, formatter_int_wrapper.formatter, arg.is_wrapper, formatter_lines]

/-- While a successful formatting runs, `std::cout` receives exactly one constructor line
for each `int_wrapper` among the arguments the fields consume, and nothing else. -/
theorem vformat_loop_lines (t : List Char) :
    ∀ (st : scan) (args : List arg) (out m : String),
      (vformat_loop arg.render st t args "" out).result = some m →
      (vformat_loop arg.render st t args "" out).cout =
        formatter_lines ((args.take (field_count st t)).countP arg.is_wrapper) := by
  induction t with
  | nil =>
    intro st args out m _
    cases st <;> simp [vformat_loop, field_count, formatter_lines]
  | cons c rest ih =>
    intro st args out m hm
    cases st with
    | text =>
      simp only [vformat_loop, field_count] at hm ⊢
      split
      · rename_i hc
        simp only [hc, if_true] at hm
        exact ih _ _ _ _ hm
      · rename_i hc
        simp only [hc, if_false] at hm
        split
        · rename_i hd
          simp only [hd, if_true] at hm
          exact ih _ _ _ _ hm
        · rename_i hd
          simp only [hd, if_false] at hm
          exact ih _ _ _ _ hm
    | closed =>
      simp only [vformat_loop, field_count] at hm ⊢
      split
      · rename_i hc
        simp only [hc, if_true] at hm
        exact ih _ _ _ _ hm
      · rename_i hc
        simp [hc] at hm
    | opened =>
      simp only [vformat_loop, field_count] at hm ⊢
      split
      · rename_i hc
        simp only [hc, if_true] at hm
        exact ih _ _ _ _ hm
      · rename_i hc
        simp only [hc, if_false] at hm
        split
        · rename_i hd
          simp only [hd, if_true] at hm
          cases args with
          | nil => simp at hm
          | cons a args1 =>
            simp only at hm ⊢
            cases hres : (arg.render a "" out).result with
            | none => simp [hres] at hm
            | some o =>
              simp only [hres] at hm ⊢
              rw [vformat_loop_cout rest scan.text args1 (arg.render a "" out).cout o] at hm ⊢
              simp only at hm ⊢
              rw [ih scan.text args1 o m hm, arg_render_lines, formatter_lines_add,
                List.take_succ_cons, List.countP_cons]
              congr 1
              cases a.is_wrapper <;> simp
              omega
        · rename_i hd
          simp [hd] at hm

/-- The formatted text depends on the arguments only through what each one renders:
argument lists that render alike field by field give the same text, whatever the state
of `std::cout`. -/
theorem vformat_loop_result_congr (t : List Char) :
    ∀ (st : scan) (args1 args2 : List arg) (cout1 cout2 out : String),
      List.Forall₂
        (fun a b => ∀ c1 c2 o, (arg.render a c1 o).result = (arg.render b c2 o).result)
        args1 args2 →
      (vformat_loop arg.render st t args1 cout1 out).result =
        (vformat_loop arg.render st t args2 cout2 out).result := by
  induction t with
  | nil => intro st args1 args2 cout1 cout2 out _; cases st <;> rfl
  | cons c rest ih =>
    intro st args1 args2 cout1 cout2 out hrel
    cases st with
    | text =>
      simp only [vformat_loop]
      split
      · exact ih _ _ _ _ _ _ hrel
      · split <;> exact ih _ _ _ _ _ _ hrel
    | closed =>
      simp only [vformat_loop]
      split
      · exact ih _ _ _ _ _ _ hrel
      · rfl
    | opened =>
      simp only [vformat_loop]
      split
      · exact ih _ _ _ _ _ _ hrel
      · split
        · cases hrel with
          | nil => rfl
          | cons hab htail =>
            rename_i a b l1 l2
            simp only
            rw [hab cout1 cout2 out]
            cases (arg.render b cout2 out).result with
            | none => rfl
            | some o => exact ih _ _ _ _ _ _ htail
        · rfl


/-! ## Lemmas on the registry -/

/-- Registering with `add_callsite` appends the pointer to the sequence. -/
theorem add_callsite_elems (grow : Nat → Nat) (w : World) (p : Option Nat) :
    (blackbox_system.add_callsite grow w p).sys.callsites.elems =
      w.sys.callsites.elems ++ [p] := by
  unfold blackbox_system.add_callsite vector.push_back
  dsimp only
  split <;> split <;> rfl

/-- Registering with `add_callsite` leaves the objects alone. -/
theorem add_callsite_heap (grow : Nat → Nat) (w : World) (p : Option Nat) :
    (blackbox_system.add_callsite grow w p).heap = w.heap := by
  unfold blackbox_system.add_callsite
  dsimp only
  split <;> rfl

/-- Registering with `add_callsite` writes nothing to `std::cout`. -/
theorem add_callsite_cout (grow : Nat → Nat) (w : World) (p : Option Nat) :
    (blackbox_system.add_callsite grow w p).cout = w.cout := by
  unfold blackbox_system.add_callsite
  dsimp only
  split <;> rfl

/-- The capacity after `add_callsite` is the capacity after `push_back`. -/
theorem add_callsite_capacity (grow : Nat → Nat) (w : World) (p : Option Nat) :
    (blackbox_system.add_callsite grow w p).sys.callsites.capacity =
      (w.sys.callsites.push_back grow p).capacity := by
  unfold blackbox_system.add_callsite
  dsimp only
  split <;> rfl

/-- The object a constructor call leaves at its address. -/
theorem bb_ctor_heap (grow : Nat → Nat) (w : World) (this : Nat) (format_string : String)
    (loc : source_location) :
    (bb.bb grow w this format_string loc).heap =
      Function.update w.heap this (some (bb.mk format_string loc 0)) := by
  unfold bb.bb
  rw [add_callsite_heap]

/-- Registering a list of pointers appends them in order. -/
theorem add_callsites_elems (grow : Nat → Nat) (ps : List (Option Nat)) :
    ∀ w : World, (add_callsites grow w ps).sys.callsites.elems =
      w.sys.callsites.elems ++ ps := by
  induction ps with
  | nil => intro w; simp [add_callsites]
  | cons p rest ih =>
    intro w
    simp only [add_callsites]
    rw [ih, add_callsite_elems, List.append_assoc, List.singleton_append]

/-! ## The claims -/

/-- C1: a trace point freshly built by the constructor has `call_count` 0, and after any
`k` of fewer than `2 ^ 64` calls of `trace` on it, run one after the other with any
arguments, its `call_count` is exactly `k`: every call raises it by one. -/
theorem call_count_counts_trace_calls (grow : Nat → Nat) (w : World) (this : Nat)
    (format_string : String) (loc : source_location) (calls : List (List arg))
    (hM : calls.length < 2 ^ 64) (k : Nat) (hk : k ≤ calls.length) :
    (bb.bb grow w this format_string loc).call_count this = some 0 ∧
    ∃ wk, trace_calls this (bb.bb grow w this format_string loc) (calls.take k) = some wk ∧
      wk.call_count this = some k := by
  have hheap : (bb.bb grow w this format_string loc).heap this
      = some (bb.mk format_string loc 0) := by
    rw [bb_ctor_heap, Function.update_same]
  refine ⟨by simp [World.call_count, hheap], ?_⟩
  have hlen : (calls.take k).length = k := by
    rw [List.length_take]; omega
  obtain ⟨wk, hrun, hcount⟩ := trace_calls_call_count this (calls.take k) _ _ hheap
    (by simp only [hlen, size_t_range]; omega)
  refine ⟨wk, hrun, ?_⟩
  rw [hcount, hlen]
  simp

/-- C1 at three calls, one of them throwing, on the trace point of `world_one_field`. -/
theorem call_count_counts_trace_calls_witness :
    three_calls.length < 2 ^ 64 ∧ 3 ≤ three_calls.length ∧
    ((bb.bb doubling world_100 4 "{}" { file_name := "f.cpp", line := 7 }).call_count 4 = some 0 ∧
    ∃ wk, trace_calls 4 (bb.bb doubling world_100 4 "{}" { file_name := "f.cpp", line := 7 })
        (three_calls.take 3) = some wk ∧
      wk.call_count 4 = some 3) :=
  ⟨by decide, by decide,
    call_count_counts_trace_calls doubling world_100 4 "{}" { file_name := "f.cpp", line := 7 }
      three_calls (by decide) 3 (by decide)⟩

/-- C2: the constructor registers the new trace point exactly once: the registry's
sequence afterwards is the sequence before with the pointer to the new object appended,
so it is one longer, ends with that pointer and keeps every earlier entry in place; the
call always yields a state, with the new object at its address. -/
theorem constructor_registers_once (grow : Nat → Nat) (w : World) (this : Nat)
    (format_string : String) (loc : source_location) :
    (bb.bb grow w this format_string loc).sys.callsites.elems =
      w.sys.callsites.elems ++ [some this] ∧
    (bb.bb grow w this format_string loc).sys.callsites.size = w.sys.callsites.size + 1 ∧
    (bb.bb grow w this format_string loc).sys.callsites.elems.getLast? = some (some this) ∧
    (∀ i, i < w.sys.callsites.size →
      (bb.bb grow w this format_string loc).sys.callsites.elems[i]? =
        w.sys.callsites.elems[i]?) ∧
    (bb.bb grow w this format_string loc).heap this = some (bb.mk format_string loc 0) := by
  have helems : (bb.bb grow w this format_string loc).sys.callsites.elems =
      w.sys.callsites.elems ++ [some this] := by
    unfold bb.bb
    rw [add_callsite_elems]
  refine ⟨helems, ?_, ?_, ?_, ?_⟩
  · simp [vector.size, helems]
  · rw [helems]; simp
  · intro i hi
    rw [helems]
    exact List.getElem?_append_left hi
  · rw [bb_ctor_heap, Function.update_same]

/-- C2 at the constructor call of line 169 on the registry of `world_100`: the 100 null
pointers stay in place and the pointer to the new object, address 2, comes last. -/
theorem constructor_registers_once_witness :
    world_ghi.sys.callsites.elems = world_100.sys.callsites.elems ++ [some 2] ∧
    world_ghi.sys.callsites.size = world_100.sys.callsites.size + 1 ∧
    world_ghi.sys.callsites.elems.getLast? = some (some 2) ∧
    (∀ i, i < world_100.sys.callsites.size →
      world_ghi.sys.callsites.elems[i]? = world_100.sys.callsites.elems[i]?) ∧
    world_ghi.heap 2 = some bb_ghi :=
  constructor_registers_once doubling world_100 2 "Write these G{} H{} I{}"
    { file_name := "f.cpp", line := 169 }

/-- C10: a `trace` call on the trace point at `this` always ends, by returning or by a
format exception, and besides `std::cout` it changes only that object's `call_count`:
the registry (sequence and capacity) is the same, every other object is the same, and
the object keeps its location and template while its counter goes up by one (modulo
`2 ^ 64`), from 0 to 1 on the first call. -/
theorem trace_changes_only_own_count (w : World) (this : Nat) (b : bb) (ts : List arg)
    (h : w.heap this = some b) :
    ∃ w1 c, bb.trace w this ts = some (w1, c) ∧
      w1.sys.callsites.elems = w.sys.callsites.elems ∧
      w1.sys.callsites.capacity = w.sys.callsites.capacity ∧
      (∀ q, q ≠ this → w1.heap q = w.heap q) ∧
      ∃ b1, w1.heap this = some b1 ∧ b1.loc = b.loc ∧ b1.format_string = b.format_string ∧
        b1.call_count = (b.call_count + 1) % 2 ^ 64 ∧
        (b.call_count = 0 → b1.call_count = 1) := by
  obtain ⟨r, hr, hsys, hheap⟩ := bb_trace_effect w this b ts h
  refine ⟨r.1, r.2, hr, by rw [hsys], by rw [hsys], ?_, ?_⟩
  · intro q hq
    rw [hheap, Function.update_noteq hq]
  · refine ⟨{ b with call_count := (b.call_count + 1) % size_t_range },
      by rw [hheap, Function.update_same], rfl, rfl, rfl, ?_⟩
    intro h0
    simp [h0, size_t_range]

/-- C10 at the first call on the trace point of `world_ghi`. -/
theorem trace_changes_only_own_count_witness :
    world_ghi.heap 2 = some bb_ghi ∧
    ∃ w1 c, bb.trace world_ghi 2 [arg.int 41, arg.int 42, arg.int 43] = some (w1, c) ∧
      w1.sys.callsites.elems = world_ghi.sys.callsites.elems ∧
      w1.sys.callsites.capacity = world_ghi.sys.callsites.capacity ∧
      (∀ q, q ≠ 2 → w1.heap q = world_ghi.heap q) ∧
      ∃ b1, w1.heap 2 = some b1 ∧ b1.loc = bb_ghi.loc ∧
        b1.format_string = bb_ghi.format_string ∧
        b1.call_count = (bb_ghi.call_count + 1) % 2 ^ 64 ∧
        (bb_ghi.call_count = 0 → b1.call_count = 1) :=
  ⟨rfl, trace_changes_only_own_count world_ghi 2 bb_ghi [arg.int 41, arg.int 42, arg.int 43] rfl⟩

/-- C3, as the code has it: when `std::vformat` gives the message `m` for the template
and the arguments, a `trace` call returns and has appended to `std::cout` exactly
`At file:line: `, then one line `formatter<int_wrapper>()` for each `int_wrapper` among
the arguments the template's `{}` fields consume, then `m` and a newline; with no
`int_wrapper` among the arguments that is exactly `At file:line: m` and a newline. File
and line are those stored in the object, which the call leaves as they were. -/
theorem trace_output (w : World) (this : Nat) (b : bb) (ts : List arg) (m : String)
    (h : w.heap this = some b) (hm : (vformat b.format_string ts "").result = some m) :
    ∃ w1, bb.trace w this ts = some (w1, completion.returned) ∧
      w1.cout = w.cout ++ "At " ++ b.loc.file_name ++ ":" ++ Nat.repr b.loc.line ++ ": "
        ++ formatter_lines (wrappers_formatted b.format_string ts) ++ m ++ "\n" ∧
      ((∀ a ∈ ts, arg.is_wrapper a = false) →
        w1.cout = w.cout ++ "At " ++ b.loc.file_name ++ ":" ++ Nat.repr b.loc.line ++ ": "
          ++ m ++ "\n") ∧
      (w1.heap this).map bb.loc = some b.loc := by
  have hm1 : (vformat_loop arg.render scan.text b.format_string.data ts "" "").result = some m := hm
  have hlines := vformat_loop_lines b.format_string.data scan.text ts "" m hm1
  have hcout := vformat_loop_cout b.format_string.data scan.text ts
    (w.cout ++ "At " ++ b.loc.file_name ++ ":" ++ Nat.repr b.loc.line ++ ": ") ""
  rw [hlines, hm1] at hcout
  have htrace : bb.trace w this ts = some
      ({ w with
          heap := Function.update w.heap this
            (some { b with call_count := (b.call_count + 1) % size_t_range }),
          cout := w.cout ++ "At " ++ b.loc.file_name ++ ":" ++ Nat.repr b.loc.line ++ ": "
            ++ formatter_lines (wrappers_formatted b.format_string ts) ++ m ++ "\n" },
        completion.returned) := by
    unfold bb.trace
    rw [h]
    simp only [ite_self, vformat, hcout, wrappers_formatted]
  refine ⟨_, htrace, rfl, ?_, ?_⟩
  · intro hnone
    have hzero : wrappers_formatted b.format_string ts = 0 := by
      unfold wrappers_formatted
      rw [List.countP_eq_zero]
      intro a ha
      simp [hnone a (List.mem_of_mem_take ha)]
    simp [hzero, formatter_lines]
  · simp

/-- C3 at three calls. The second trace point of `main`, template
`Write these G{} H{} I{}` with 41, 42, 43, writes `At f.cpp:169: Write these G41 H42 I43`.
The third, template `Write this good boy {}` with `int_wrapper{0}`, writes the prefix,
one constructor line and the message. The template `a{}b{}c` with three `int_wrapper`
arguments formats two of them and writes two constructor lines. -/
theorem trace_output_witness :
    (world_ghi.heap 2 = some bb_ghi ∧
      (vformat bb_ghi.format_string [arg.int 41, arg.int 42, arg.int 43] "").result =
        some "Write these G41 H42 I43" ∧
      ∃ w1, bb.trace world_ghi 2 [arg.int 41, arg.int 42, arg.int 43] =
          some (w1, completion.returned) ∧
        w1.cout = "At f.cpp:169: Write these G41 H42 I43\n" ∧
        ((∀ a ∈ [arg.int 41, arg.int 42, arg.int 43], arg.is_wrapper a = false) →
          w1.cout = "At f.cpp:169: Write these G41 H42 I43\n") ∧
        (w1.heap 2).map bb.loc = some bb_ghi.loc) ∧
    (world_good_boy.heap 3 = some bb_good_boy ∧
      (vformat bb_good_boy.format_string [arg.wrapper { n := 0 }] "").result =
        some "Write this good boy 0" ∧
      wrappers_formatted bb_good_boy.format_string [arg.wrapper { n := 0 }] = 1 ∧
      ∃ w1, bb.trace world_good_boy 3 [arg.wrapper { n := 0 }] =
          some (w1, completion.returned) ∧
        w1.cout = "At f.cpp:182: formatter<int_wrapper>()\nWrite this good boy 0\n" ∧
        ((∀ a ∈ [arg.wrapper { n := 0 }], arg.is_wrapper a = false) →
          w1.cout = "At f.cpp:182: Write this good boy 0\n") ∧
        (w1.heap 3).map bb.loc = some bb_good_boy.loc) ∧
    (world_two_fields.heap 5 = some bb_two_fields ∧
      (vformat bb_two_fields.format_string
        [arg.wrapper { n := 1 }, arg.wrapper { n := 2 }, arg.wrapper { n := 3 }] "").result =
        some "a1b2c" ∧
      wrappers_formatted bb_two_fields.format_string
        [arg.wrapper { n := 1 }, arg.wrapper { n := 2 }, arg.wrapper { n := 3 }] = 2 ∧
      ∃ w1, bb.trace world_two_fields 5
          [arg.wrapper { n := 1 }, arg.wrapper { n := 2 }, arg.wrapper { n := 3 }] =
          some (w1, completion.returned) ∧
        w1.cout =
          "At f.cpp:9: formatter<int_wrapper>()\nformatter<int_wrapper>()\na1b2c\n" ∧
        ((∀ a ∈ [arg.wrapper { n := 1 }, arg.wrapper { n := 2 }, arg.wrapper { n := 3 }],
            arg.is_wrapper a = false) →
          w1.cout = "At f.cpp:9: a1b2c\n") ∧
        (w1.heap 5).map bb.loc = some bb_two_fields.loc) :=
  ⟨⟨rfl, rfl,
      trace_output world_ghi 2 bb_ghi [arg.int 41, arg.int 42, arg.int 43]
        "Write these G41 H42 I43" rfl rfl⟩,
    ⟨rfl, rfl, rfl,
      trace_output world_good_boy 3 bb_good_boy [arg.wrapper { n := 0 }]
        "Write this good boy 0" rfl rfl⟩,
    ⟨rfl, rfl, rfl,
      trace_output world_two_fields 5 bb_two_fields
        [arg.wrapper { n := 1 }, arg.wrapper { n := 2 }, arg.wrapper { n := 3 }]
        "a1b2c" rfl rfl⟩⟩

/-- C3 as stated fails on two inputs. With the `int_wrapper` argument of `main` the
message is `Write this good boy 0`, yet the text written has the formatter's
constructor line between the prefix and the message. With the template `{}` and no
argument `std::vformat` throws: only the prefix is written, no message and no newline. -/
theorem trace_output_counterexample :
    (vformat "Write this good boy {}" [arg.wrapper { n := 0 }] "").result =
      some "Write this good boy 0" ∧
    (bb.trace world_good_boy 3 [arg.wrapper { n := 0 }]).map (fun r => (r.1.cout, r.2)) =
      some ("At f.cpp:182: formatter<int_wrapper>()\nWrite this good boy 0\n",
        completion.returned) ∧
    (bb.trace world_good_boy 3 [arg.wrapper { n := 0 }]).map (fun r => r.1.cout) ≠
      some (world_good_boy.cout ++ "At " ++ "f.cpp" ++ ":" ++ Nat.repr 182 ++ ": "
        ++ "Write this good boy 0" ++ "\n") ∧
    (vformat "{}" [] "").result = none ∧
    (bb.trace world_one_field 4 []).map (fun r => (r.1.cout, r.2)) =
      some ("At f.cpp:7: ", completion.threw) := by
  refine ⟨rfl, rfl, ?_, rfl, rfl⟩
  decide


/-- C4 on the code: the registry built by `blackbox_system(C)` holds `C` elements in
storage for `C`, so the very first `add_callsite` meets the growth condition, whatever
`C`, the growth policy and the pointer: the capacity was `C` and is larger afterwards.
For `main` (`C = 100`, doubling) it goes from 100 to 200 at the first of the three
registrations. -/
theorem first_registration_grows_capacity (grow : Nat → Nat) (C : Nat)
    (heap : Nat → Option bb) (cout : String) (p : Option Nat) :
    (blackbox_system.blackbox_system C).callsites.capacity = C ∧
    (blackbox_system.add_callsite grow
      { sys := blackbox_system.blackbox_system C, heap := heap, cout := cout }
      p).sys.callsites.capacity = max (grow C) (C + 1) ∧
    (blackbox_system.add_callsite grow
      { sys := blackbox_system.blackbox_system C, heap := heap, cout := cout }
      p).sys.callsites.capacity > (blackbox_system.blackbox_system C).callsites.capacity ∧
    (blackbox_system.add_callsite doubling world_100 (some 1)).sys.callsites.capacity = 200 := by
  have hcap : (blackbox_system.add_callsite grow
      { sys := blackbox_system.blackbox_system C, heap := heap, cout := cout }
      p).sys.callsites.capacity = max (grow C) (C + 1) := by
    rw [add_callsite_capacity]
    simp [vector.push_back, vector.capacity, vector.size, vector.sized,
      blackbox_system.blackbox_system]
  refine ⟨rfl, hcap, ?_, by decide⟩
  rw [hcap]
  show C < max (grow C) (C + 1)
  exact lt_of_lt_of_le (Nat.lt_succ_self C) (le_max_right _ _)

/-- C5 on the code: `add_callsite` never writes to `std::cout`, also when the capacity
grows. Registering into `blackbox_system(0)` grows the capacity from 0 to 1; the line
`INFO: Call site vector reallocated from 0 to 1` is formatted into the local `result`,
and the output stays empty. -/
theorem growth_diagnostic_is_not_emitted (grow : Nat → Nat) (w : World) (p : Option Nat) :
    (blackbox_system.add_callsite grow w p).cout = w.cout ∧
    (blackbox_system.add_callsite doubling
      { sys := blackbox_system.blackbox_system 0, heap := fun _ => none, cout := "" }
      (some 1)).sys.callsites.capacity = 1 ∧
    (blackbox_system.blackbox_system 0).callsites.capacity = 0 ∧
    format "INFO: Call site vector reallocated from {} to {}\n"
      [integral.integer 0, integral.integer 1] =
        some "INFO: Call site vector reallocated from 0 to 1\n" ∧
    (blackbox_system.add_callsite doubling
      { sys := blackbox_system.blackbox_system 0, heap := fun _ => none, cout := "" }
      (some 1)).cout = "" :=
  ⟨add_callsite_cout grow w p, by decide, rfl, rfl, rfl⟩

/-- C6 on the code: right after `blackbox_system(C)` the sequence holds `C` null
pointers, and after registering the pointers `ps` it is those `C` null pointers followed
by `ps`: its length is `C` plus the number of registrations. -/
theorem callsites_start_with_null_pointers (grow : Nat → Nat) (C : Nat)
    (heap : Nat → Option bb) (cout : String) (ps : List (Option Nat)) :
    (blackbox_system.blackbox_system C).callsites.elems = List.replicate C none ∧
    (add_callsites grow { sys := blackbox_system.blackbox_system C, heap := heap, cout := cout }
      ps).sys.callsites.elems = List.replicate C none ++ ps ∧
    (add_callsites grow { sys := blackbox_system.blackbox_system C, heap := heap, cout := cout }
      ps).sys.callsites.size = C + ps.length ∧
    (blackbox_system.blackbox_system 1).callsites.elems = [none] := by
  have helems := add_callsites_elems grow ps
    { sys := blackbox_system.blackbox_system C, heap := heap, cout := cout }
  refine ⟨rfl, helems, ?_, rfl⟩
  rw [vector.size, helems]
  simp [blackbox_system.blackbox_system, vector.sized]

/-- C7: at a `{}` field an `int_wrapper` holding `n` gives the same text as the plain
integer `n`: the formatter appends the decimal text of `n`, and in any template, at any
position among the arguments, replacing the wrapper by the integer leaves the formatted
message the same. The trace point of `main` with template `Write this good boy {}` and
`int_wrapper{0}` emits the message `Write this good boy 0`. -/
theorem int_wrapper_formats_like_int (n : Int) (fmt : String) (before after : List arg)
    (cout1 cout2 out : String) :
    formatter_int_wrapper.format { n := n } out = some (out ++ Int.repr n) ∧
    (arg.render (arg.wrapper { n := n }) cout1 out).result =
      (arg.render (arg.int n) cout2 out).result ∧
    (vformat fmt (before ++ arg.wrapper { n := n } :: after) cout1).result =
      (vformat fmt (before ++ arg.int n :: after) cout2).result ∧
    (vformat "Write this good boy {}" [arg.wrapper { n := 0 }] "").result =
      some "Write this good boy 0" ∧
    (bb.trace world_good_boy 3 [arg.wrapper { n := 0 }]).map (fun r => r.1.cout) =
      some "At f.cpp:182: formatter<int_wrapper>()\nWrite this good boy 0\n" := by
  have hone : ∀ c1 c2 o, (arg.render (arg.wrapper { n := n }) c1 o).result =
      (arg.render (arg.int n) c2 o).result := by
    intro c1 c2 o
    rfl
  refine ⟨rfl, hone cout1 cout2 out, ?_, rfl, rfl⟩
  apply vformat_loop_result_congr
  apply List.rel_append
  · exact List.forall₂_same.mpr (fun a _ c1 c2 o => by
      rw [arg_render_cout a c1 o, arg_render_cout a c2 o])
  · refine List.Forall₂.cons hone ?_
    exact List.forall₂_same.mpr (fun a _ c1 c2 o => by
      rw [arg_render_cout a c1 o, arg_render_cout a c2 o])

/-- C8, as the code has it: `traceable` accepts exactly the built-in integral types and
`int_wrapper`. Every floating-point type is rejected, and so is `untraceable`, which has
no formatter. The concept is a predicate on types, decided before any run. -/
theorem traceable_accepts_integral_and_int_wrapper (T : cpp_type) :
    (traceable T = true ↔ T ∈ traceable_types) ∧
    (traceable T = true ↔ (T.integral = true ∨ T = cpp_type.int_wrapper)) ∧
    (T.floating_point && traceable T) = false ∧
    traceable cpp_type.int_wrapper = true ∧
    traceable cpp_type.untraceable = false ∧
    cpp_type.has_formatter cpp_type.untraceable = false := by
  cases T <;> decide

/-- C8 as stated fails: `double` is a built-in floating-point type with a formatter and
`std::string` has a formatter, yet `traceable` rejects both; `char16_t` has no formatter
for `char` output, yet `traceable` accepts it. -/
theorem traceable_counterexample :
    cpp_type.floating_point cpp_type.double = true ∧
    cpp_type.has_formatter cpp_type.double = true ∧
    traceable cpp_type.double = false ∧
    cpp_type.has_formatter cpp_type.std_string = true ∧
    traceable cpp_type.std_string = false ∧
    cpp_type.has_formatter cpp_type.char16_t = false ∧
    traceable cpp_type.char16_t = true := by
  decide

end ConstevalSourceLocation
